import Mathlib

/-!
Shallow embedding of `wagtail/contrib/search_promotions/views/settings.py`.

The relational store (Django ORM tables for `Query`, `SearchPromotion`, the
daily-hits counters and the audit log) is embedded as an explicit `Store`
record.  Each Django view becomes a pure function from a request value and a
store to a result (new store, response, flash messages).  The statements
inside the `transaction.atomic()` blocks are embedded as explicit tagged step
lists, so that both the pure semantics (all steps applied in order) and the
transactional all-or-nothing semantics (a failure of any step rolls the store
back) can be stated.

Django/Wagtail framework calls that the view code relies on (model formset
save semantics, `Paginator`, `log`, `Query.get`, `Query.get_most_popular`,
`normalise_query_string`) are embedded with their documented behaviour; the
ones owned by this repository but absent from the sources at hand are marked
`Modelled from the spec:` in their doc comments.
-/

/-- A row of the `Query` table: an id and a normalised query string. -/
structure Query where
  id : Nat
  query_string : String
deriving Repr, DecidableEq

/-- A row of the `SearchPromotion` table.  `pk = none` models an unsaved
instance (Django `instance.pk is None`). -/
structure SearchPromotion where
  pk : Option Nat
  query_id : Nat
  page_id : Nat
  description : String
  sort_order : Nat
deriving Repr, DecidableEq

/-- An entry of the audit log produced by `wagtail.log_actions.log`:
the primary key of the object at the moment of the call, and the action. -/
structure LogEntry where
  object_pk : Option Nat
  action : String
deriving Repr, DecidableEq

/-- A row of the daily-hits table (`Query.daily_hits` in the ORM). -/
structure DailyHits where
  query_id : Nat
  hits : Nat
deriving Repr, DecidableEq

/-- The relational store.  `next_pk` / `next_query_id` model the
auto-increment counters of the two tables. -/
structure Store where
  queries : List Query
  promotions : List SearchPromotion
  daily_hits : List DailyHits
  logs : List LogEntry
  next_pk : Nat
  next_query_id : Nat
deriving Repr, DecidableEq

/-- `wagtail.log_actions.log(instance, action)`: appends an audit entry
recording the instance's current pk. -/
def log (p : SearchPromotion) (action : String) (st : Store) : Store :=
  { st with logs := st.logs ++ [LogEntry.mk p.pk action] }

/-- Annotated `views` of a query: `Coalesce(Sum("daily_hits__hits"), 0)`. -/
def query_views (st : Store) (q : Query) : Nat :=
  (st.daily_hits.filter (fun d => d.query_id == q.id)).foldl (fun a d => a + d.hits) 0

/-- `SearchPromotion.objects.values_list("query_id", flat=True)`. -/
def has_promotions (st : Store) : List Nat :=
  st.promotions.map (fun p => p.query_id)

/-- `IndexView.get_base_queryset`: the queries filtered by
`pk__in=has_promotions`, annotated with the `views` sum.  (The
`prefetch_related` call is a performance hint with no observable effect on
the result set and is not modelled.) -/
def get_base_queryset (st : Store) : List (Query × Nat) :=
  (st.queries.filter (fun q => (has_promotions st).contains q.id)).map
    (fun q => (q, query_views st q))

/-- One form of the `SearchPromotionsFormSet`: a bound instance, the
`DELETE` checkbox, and `form.changed_data` (the fields that actually carry
changed values). -/
structure PickForm where
  inst : SearchPromotion
  delete : Bool
  changed_data : List String
deriving Repr, DecidableEq

/-- The bound `SearchPromotionsFormSet`: the outcome of its validation, its
`non_form_errors()`, and its meaningful forms in submitted order (blank
extra forms, which Django skips entirely, are not represented). -/
structure SearchPromotionsFormSet where
  valid : Bool
  non_form_errors : List String
  forms : List PickForm
deriving Repr, DecidableEq

/-- The `for i, form in enumerate(searchpicks_formset.ordered_forms)` loop:
each non-deleted form's instance receives `sort_order = i`, where `i` counts
non-deleted forms; deleted forms are untouched (`ordered_forms` excludes
them). -/
def assignAux : List PickForm → Nat → List PickForm
  | [], _ => []
  | f :: fs, i =>
    if f.delete then f :: assignAux fs i
    else { f with inst := { f.inst with sort_order := i } } :: assignAux fs (i + 1)

/-- The formset after the sort-order assignment loop (the `has_changed`
override is reflected in `changed_objects` below, which includes every
surviving pre-existing form). -/
def assign_sort_orders (fs : SearchPromotionsFormSet) : SearchPromotionsFormSet :=
  { fs with forms := assignAux fs.forms 0 }

/-- `[form.instance for form in searchpicks_formset.deleted_forms if
form.instance.pk]`. -/
def items_for_deletion (fs : SearchPromotionsFormSet) : List SearchPromotion :=
  (fs.forms.filter (fun f => f.delete)).filterMap
    (fun f => if f.inst.pk.isSome then some f.inst else none)

/-- The pks removed by the formset save: the pks of `items_for_deletion`. -/
def deleted_pks (fs : SearchPromotionsFormSet) : List Nat :=
  (items_for_deletion fs).filterMap (fun p => p.pk)

/-- The surviving forms bound to pre-existing rows (instance has a pk). -/
def existing_forms (fs : SearchPromotionsFormSet) : List PickForm :=
  fs.forms.filter (fun f => !f.delete && f.inst.pk.isSome)

/-- The surviving forms holding new instances (no pk yet). -/
def new_forms (fs : SearchPromotionsFormSet) : List PickForm :=
  fs.forms.filter (fun f => !f.delete && f.inst.pk.isNone)

/-- Saving the new instances: each receives the next auto-increment pk and,
as with any inline formset, its foreign key is set to the formset's
`instance` (the query the formset was built with). -/
def insertNew (qid : Nat) : List PickForm → Nat → List SearchPromotion
  | [], _ => []
  | f :: fs, n => { f.inst with pk := some n, query_id := qid } :: insertNew qid fs (n + 1)

/-- `searchpicks_formset.new_objects` as populated by `formset.save()`:
the freshly inserted instances. -/
def new_objects (query : Query) (fs : SearchPromotionsFormSet) (st : Store) :
    List SearchPromotion :=
  insertNew query.id (new_forms fs) st.next_pk

/-- `searchpicks_formset.changed_objects` as populated by `formset.save()`:
since `has_changed` was overridden to `True` on every ordered form, every
surviving pre-existing form is reported, paired with its real
`changed_data`. -/
def changed_objects (fs : SearchPromotionsFormSet) :
    List (SearchPromotion × List String) :=
  (existing_forms fs).map (fun f => (f.inst, f.changed_data))

/-- `searchpicks_formset.save()`: delete the rows of deleted forms, write
back the instances of surviving pre-existing forms, insert the new
instances with fresh pks. -/
def formset_save (query : Query) (fs : SearchPromotionsFormSet) (st : Store) : Store :=
  let kept := st.promotions.filter (fun p =>
    match p.pk with
    | some k => !((deleted_pks fs).contains k)
    | none => true)
  let updated := kept.map (fun p =>
    match (existing_forms fs).find? (fun f => f.inst.pk == p.pk) with
    | some f => f.inst
    | none => p)
  { st with
    promotions := updated ++ new_objects query fs st,
    next_pk := st.next_pk + (new_forms fs).length }

/-- `searchpicks_formset.get_queryset().update(query=new_query)`: a bulk SQL
`UPDATE` moving every promotion row whose foreign key points at the old
query over to the new query. -/
def bulk_update (query new_query : Query) (st : Store) : Store :=
  { st with promotions := st.promotions.map (fun p =>
      if p.query_id == query.id then { p with query_id := new_query.id } else p) }

/-- Tag naming which statement of the view code a transactional step embeds. -/
inductive StepTag where
  | logDelete (pk : Option Nat)
  | formsetSave
  | logCreate (pk : Option Nat)
  | bulkUpdate
  | logEdit (pk : Option Nat)
  | deleteQuerySet
deriving Repr, DecidableEq

/-- One statement executed against the store, with its tag. -/
structure Step where
  tag : StepTag
  run : Store → Store

/-- A loop of `log(...)` calls over a list of instances, as steps. -/
def logSteps (tg : Option Nat → StepTag) (action : String)
    (ps : List SearchPromotion) : List Step :=
  ps.map (fun p => { tag := tg p.pk, run := log p action })

/-- Running a step list in order (the non-failing execution). -/
def applySteps (steps : List Step) (st : Store) : Store :=
  steps.foldl (fun s stp => stp.run s) st

/-- The body of the `transaction.atomic()` block of `save_searchpicks`, in
program order: delete logs, `formset.save()`, create logs, then either the
bulk reassignment followed by unconditional edit logs (query changed) or
edit logs restricted to forms with actual changed fields (query unchanged).
Equality of Django model instances compares primary keys, so
`query != new_query` is embedded as `query.id ≠ new_query.id`. -/
def save_steps (query new_query : Query) (fs : SearchPromotionsFormSet) (st : Store) :
    List Step :=
  logSteps StepTag.logDelete "wagtail.delete" (items_for_deletion fs)
    ++ [{ tag := StepTag.formsetSave, run := formset_save query fs }]
    ++ logSteps StepTag.logCreate "wagtail.create" (new_objects query fs st)
    ++ (if query.id = new_query.id then
          logSteps StepTag.logEdit "wagtail.edit"
            (((changed_objects fs).filter (fun pc => !pc.2.isEmpty)).map (fun pc => pc.1))
        else
          { tag := StepTag.bulkUpdate, run := bulk_update query new_query }
            :: logSteps StepTag.logEdit "wagtail.edit"
                ((changed_objects fs).map (fun pc => pc.1)))

/-- The audit-log entries appended by a successful `save_searchpicks`, in
order. -/
def save_log_delta (query new_query : Query) (fs : SearchPromotionsFormSet)
    (st : Store) : List LogEntry :=
  (items_for_deletion fs).map (fun p => LogEntry.mk p.pk "wagtail.delete")
    ++ (new_objects query fs st).map (fun p => LogEntry.mk p.pk "wagtail.create")
    ++ (if query.id = new_query.id then
          (((changed_objects fs).filter (fun pc => !pc.2.isEmpty)).map (fun pc => pc.1)).map
            (fun p => LogEntry.mk p.pk "wagtail.edit")
        else
          ((changed_objects fs).map (fun pc => pc.1)).map
            (fun p => LogEntry.mk p.pk "wagtail.edit"))

/-- `save_searchpicks(query, new_query, searchpicks_formset)`: on a valid
formset, assign sort orders and run the transactional body; on an invalid
formset, do nothing and return `False`. -/
def save_searchpicks (query new_query : Query) (fs₀ : SearchPromotionsFormSet)
    (st : Store) : Bool × Store :=
  if fs₀.valid then
    (true, applySteps (save_steps query new_query (assign_sort_orders fs₀) st) st)
  else
    (false, st)

/-- Running a step list where the external store may fail any individual
statement (`failAt n` says the n-th statement from the given offset raises);
the first failure aborts the run. -/
def runStepsFrom (failAt : Nat → Bool) : List Step → Nat → Store → Option Store
  | [], _, st => some st
  | s :: rest, n, st =>
    if failAt n then none
    else runStepsFrom failAt rest (n + 1) (s.run st)

/-- `transaction.atomic()` around a step list: on success the final store is
committed; on any failure the store is rolled back to its entry state (the
boolean records whether the transaction committed). -/
def atomic (failAt : Nat → Bool) (steps : List Step) (st : Store) : Store × Bool :=
  match runStepsFrom failAt steps 0 st with
  | some st' => (st', true)
  | none => (st, false)

/-- Modelled from the spec: `normalise_query_string` (from
`wagtail.search.utils`, not among the given sources) produces the normalised
form of a search phrase — lowercased, with surrounding and repeated
whitespace collapsed. -/
def normalise_query_string (s : String) : String :=
  " ".intercalate ((s.toLower.splitOn " ").filter (fun w => !w.isEmpty))

/-- Modelled from the spec: `Query.get` (from the search-promotions models
module, not among the given sources) returns the Query entity for the
normalised form of the given string, creating the record if absent. -/
def Query.get (s : String) (st : Store) : Query × Store :=
  let ns := normalise_query_string s
  match st.queries.find? (fun q => q.query_string == ns) with
  | some q => (q, st)
  | none =>
    let q := Query.mk st.next_query_id ns
    (q, { st with queries := st.queries ++ [q], next_query_id := st.next_query_id + 1 })

/-- A flash message added via `wagtail.admin.messages`. -/
inductive Msg where
  | success (text : String)
  | error (text : String)
deriving Repr, DecidableEq

/-- The response of a view: a redirect, a rendered template (carrying the
bound formset when one is rendered, so field errors surface inline), or a
404. -/
inductive Response where
  | redirect (url : String)
  | template (name : String) (fs : Option SearchPromotionsFormSet)
  | notFound
deriving Repr, DecidableEq

/-- The observable outcome of one request: the store afterwards, the
response, and the flash messages added. -/
structure ViewResult where
  store : Store
  response : Response
  messages : List Msg
deriving Repr, DecidableEq

/-- A POST/GET request to the `add` view: the outcome of `QueryForm`
validation, the submitted query string, and the bound formset. -/
structure AddRequest where
  isPost : Bool
  query_form_valid : Bool
  query_string : String
  formset : SearchPromotionsFormSet
deriving Repr, DecidableEq

/-- The `add` view.  On success it logs every new object with
`wagtail.create` a second time (after `save_searchpicks` already did so
inside the transaction), adds a success message and redirects to the
index. -/
def add (req : AddRequest) (st : Store) : ViewResult :=
  if req.isPost then
    if req.query_form_valid then
      let qs := Query.get req.query_string st
      let query := qs.1
      let st₁ := qs.2
      let res := save_searchpicks query query req.formset st₁
      if res.1 then
        let newObjs := new_objects query (assign_sort_orders req.formset) st₁
        { store := applySteps (logSteps StepTag.logCreate "wagtail.create" newObjs) res.2,
          response := Response.redirect "wagtailsearchpromotions:index",
          messages := [Msg.success
            ("Editor's picks for '" ++ query.query_string ++ "' created.")] }
      else
        { store := res.2,
          response := Response.template "wagtailsearchpromotions/add.html" (some req.formset),
          messages := [if req.formset.non_form_errors.isEmpty then
              Msg.error "Recommendations have not been created due to errors"
            else
              Msg.error (" ".intercalate req.formset.non_form_errors)] }
    else
      { store := st,
        response := Response.template "wagtailsearchpromotions/add.html" none,
        messages := [] }
  else
    { store := st,
      response := Response.template "wagtailsearchpromotions/add.html" none,
      messages := [] }

/-- A POST/GET request to the `edit` view. -/
structure EditRequest where
  isPost : Bool
  query_form_valid : Bool
  query_string : String
  formset : SearchPromotionsFormSet
deriving Repr, DecidableEq

/-- The `edit` view for the query with id `query_id` (`get_object_or_404`
first; on POST the formset is bound to the old query and
`save_searchpicks(query, new_query, ...)` is called). -/
def edit (req : EditRequest) (query_id : Nat) (st : Store) : ViewResult :=
  match st.queries.find? (fun q => q.id == query_id) with
  | none => { store := st, response := Response.notFound, messages := [] }
  | some query =>
    if req.isPost then
      if req.query_form_valid then
        let qs := Query.get req.query_string st
        let new_query := qs.1
        let st₁ := qs.2
        let res := save_searchpicks query new_query req.formset st₁
        if res.1 then
          { store := res.2,
            response := Response.redirect "wagtailsearchpromotions:index",
            messages := [Msg.success
              ("Editor's picks for '" ++ new_query.query_string ++ "' updated.")] }
        else
          { store := res.2,
            response := Response.template "wagtailsearchpromotions/edit.html"
              (some req.formset),
            messages := [if req.formset.non_form_errors.isEmpty then
                Msg.error "Recommendations have not been saved due to errors"
              else
                Msg.error (" ".intercalate req.formset.non_form_errors)] }
      else
        { store := st,
          response := Response.template "wagtailsearchpromotions/edit.html"
            (some req.formset),
          messages := [] }
    else
      { store := st,
        response := Response.template "wagtailsearchpromotions/edit.html" none,
        messages := [] }

/-- `query.editors_picks.all()`: the promotion rows of a query. -/
def editors_picks (query : Query) (st : Store) : List SearchPromotion :=
  st.promotions.filter (fun p => p.query_id == query.id)

/-- `editors_picks.delete()`: remove every promotion row of the query. -/
def delete_picks (query : Query) (st : Store) : Store :=
  { st with promotions := st.promotions.filter (fun p => !(p.query_id == query.id)) }

/-- The body of the `transaction.atomic()` block of the `delete` view:
one delete-log per pick, then the queryset deletion. -/
def delete_steps (query : Query) (st : Store) : List Step :=
  logSteps StepTag.logDelete "wagtail.delete" (editors_picks query st)
    ++ [{ tag := StepTag.deleteQuerySet, run := delete_picks query }]

/-- The `delete` view for the query with id `query_id`. -/
def delete (isPost : Bool) (query_id : Nat) (st : Store) : ViewResult :=
  match st.queries.find? (fun q => q.id == query_id) with
  | none => { store := st, response := Response.notFound, messages := [] }
  | some query =>
    if isPost then
      { store := applySteps (delete_steps query st) st,
        response := Response.redirect "wagtailsearchpromotions:index",
        messages := [Msg.success "Editor's picks deleted."] }
    else
      { store := st,
        response := Response.template "wagtailsearchpromotions/confirm_delete.html" none,
        messages := [] }

/-- Case-insensitive substring test (`query_string__icontains`). -/
def icontains (hay needle : String) : Bool :=
  needle.toLower.isEmpty || (hay.toLower.splitOn needle.toLower).length > 1

/-- Modelled from the spec: `Query.get_most_popular` (from the
search-promotions models module, not among the given sources) returns the
queries ranked by popularity, popularity being derived from the
time-bucketed daily hit counters. -/
def insertByViews (st : Store) (q : Query) : List Query → List Query
  | [] => [q]
  | x :: xs =>
    if query_views st x < query_views st q then q :: x :: xs
    else x :: insertByViews st q xs

/-- Modelled from the spec: the popularity-ranked query list (an insertion
sort by descending annotated views). -/
def get_most_popular (st : Store) : List Query :=
  st.queries.foldr (insertByViews st) []

/-- The parse outcome of the `p` GET parameter: absent (defaults to page 1),
present but not an integer, or an integer. -/
inductive PageParam where
  | missing
  | notAnInt
  | num (n : Int)
deriving Repr, DecidableEq

/-- A GET request to the chooser: the optional `q` parameter, the outcome of
`SearchForm` validation, and the `p` parameter. -/
structure ChooserRequest where
  q : Option String
  q_valid : Bool
  p : PageParam
deriving Repr, DecidableEq

/-- The response of the chooser: the rendered page of queries (the modal and
the results fragment render the same page of the same object list) or 404. -/
inductive ChooserResponse where
  | notFound
  | page (get_results : Bool) (queries : List Query)
deriving Repr, DecidableEq

/-- Django `Paginator.num_pages` with `orphans=0` and
`allow_empty_first_page=True`: at least one page, else the ceiling of
`count / per_page`. -/
def num_pages (count per_page : Nat) : Nat :=
  max 1 ((count + per_page - 1) / per_page)

/-- Django `paginator.page(p)`: `p` defaults to 1; a non-integer, a number
below 1, or a number beyond `num_pages` raises `InvalidPage` (`none`);
otherwise the slice of the object list for that page. -/
def paginator_page (items : List Query) (per_page : Nat) (p : PageParam) :
    Option (List Query) :=
  let number? : Option Int :=
    match p with
    | PageParam.missing => some 1
    | PageParam.notAnInt => none
    | PageParam.num n => some n
  match number? with
  | none => none
  | some n =>
    if n < 1 then none
    else if (num_pages items.length per_page : Int) < n then none
    else some ((items.drop ((n.toNat - 1) * per_page)).take per_page)

/-- The object list of the chooser before pagination: the most popular
queries, filtered by `icontains` on the normalised search term when a valid
`q` was submitted. -/
def chooser_queries (req : ChooserRequest) (st : Store) : List Query :=
  let queries := get_most_popular st
  match req.q with
  | some term =>
    if req.q_valid then
      queries.filter (fun query => icontains query.query_string (normalise_query_string term))
    else queries
  | none => queries

/-- The `chooser` view (shared by the modal and the results fragment):
paginate the chooser queries at 10 per page; `InvalidPage` becomes
`Http404`. -/
def chooser (req : ChooserRequest) (st : Store) (get_results : Bool) :
    ChooserResponse :=
  match paginator_page (chooser_queries req st) 10 req.p with
  | none => ChooserResponse.notFound
  | some page => ChooserResponse.page get_results page

/-- The `chooserresults` view delegates to `chooser` with
`get_results=True`. -/
def chooserresults (req : ChooserRequest) (st : Store) : ChooserResponse :=
  chooser req st true

/-- Sample query record used to evaluate the definitions on concrete data. -/
def fxQueryA : Query := { id := 1, query_string := "alpha" }

/-- A second sample query record. -/
def fxQueryB : Query := { id := 2, query_string := "beta" }

/-- A persisted sample promotion row belonging to `fxQueryA`. -/
def fxPick : SearchPromotion :=
  { pk := some 5, query_id := 1, page_id := 100, description := "d", sort_order := 0 }

/-- An unsaved sample promotion instance. -/
def fxPickNew : SearchPromotion :=
  { pk := none, query_id := 1, page_id := 101, description := "e", sort_order := 0 }

/-- A sample store with both queries, one promotion and one hits row. -/
def fxStore : Store :=
  { queries := [fxQueryA, fxQueryB], promotions := [fxPick],
    daily_hits := [{ query_id := 1, hits := 3 }], logs := [],
    next_pk := 6, next_query_id := 3 }

/-- A valid sample formset editing `fxPick` and adding `fxPickNew`. -/
def fxFormSet : SearchPromotionsFormSet :=
  { valid := true, non_form_errors := [],
    forms := [{ inst := fxPick, delete := false, changed_data := ["description"] },
              { inst := fxPickNew, delete := false, changed_data := [] }] }

/-- A valid sample formset deleting `fxPick`. -/
def fxFormSetDel : SearchPromotionsFormSet :=
  { valid := true, non_form_errors := [],
    forms := [{ inst := fxPick, delete := true, changed_data := [] }] }

/-- An invalid sample formset with a top-level error. -/
def fxFormSetBad : SearchPromotionsFormSet :=
  { valid := false, non_form_errors := ["Submit at least one form."], forms := [] }

/-- An invalid sample formset without top-level errors. -/
def fxFormSetBadField : SearchPromotionsFormSet :=
  { valid := false, non_form_errors := [],
    forms := [{ inst := fxPickNew, delete := false, changed_data := ["page"] }] }

/- ------------------------------------------------------------------ -/
/- Theorems. -/

theorem applySteps_cons (s : Step) (rest : List Step) (st : Store) :
    applySteps (s :: rest) st = applySteps rest (s.run st) := rfl

theorem applySteps_singleton (s : Step) (st : Store) :
    applySteps [s] st = s.run st := rfl

theorem applySteps_append (a b : List Step) (st : Store) :
    applySteps (a ++ b) st = applySteps b (applySteps a st) := by
  simp [applySteps, List.foldl_append]

theorem applySteps_logSteps (tg : Option Nat → StepTag) (a : String) :
    ∀ (ps : List SearchPromotion) (st : Store),
      applySteps (logSteps tg a ps) st =
        { st with logs := st.logs ++ ps.map (fun p => LogEntry.mk p.pk a) }
  | [], st => by simp [logSteps, applySteps]
  | p :: ps, st => by
    rw [show logSteps tg a (p :: ps)
          = { tag := tg p.pk, run := log p a } :: logSteps tg a ps from rfl,
        applySteps_cons, applySteps_logSteps tg a ps]
    simp [log, List.append_assoc]

theorem formset_save_logs_comm (query : Query) (fs : SearchPromotionsFormSet)
    (st : Store) (L : List LogEntry) :
    formset_save query fs { st with logs := L } =
      { formset_save query fs st with logs := L } := rfl

theorem bulk_update_logs_comm (query new_query : Query) (st : Store)
    (L : List LogEntry) :
    bulk_update query new_query { st with logs := L } =
      { bulk_update query new_query st with logs := L } := rfl

/-- The full effect of a successful `save_searchpicks` on the store: the
formset save (and, when the query changed, the bulk reassignment) applied to
the promotions, and the audit-log delta appended. -/
theorem save_searchpicks_store_char (query new_query : Query)
    (fs₀ : SearchPromotionsFormSet) (st : Store) (h : fs₀.valid = true) :
    (save_searchpicks query new_query fs₀ st).2 =
      { (if query.id = new_query.id then
           formset_save query (assign_sort_orders fs₀) st
         else
           bulk_update query new_query (formset_save query (assign_sort_orders fs₀) st))
        with
        logs := st.logs ++ save_log_delta query new_query (assign_sort_orders fs₀) st } := by
  have hfs : save_searchpicks query new_query fs₀ st
      = (true, applySteps (save_steps query new_query (assign_sort_orders fs₀) st) st) := by
    simp [save_searchpicks, h]
  rw [hfs]
  by_cases hq : query.id = new_query.id <;>
    simp [save_steps, save_log_delta, hq, applySteps_append, applySteps_logSteps,
      applySteps_singleton, applySteps_cons, formset_save_logs_comm,
      bulk_update_logs_comm, List.append_assoc]

theorem save_searchpicks_fst (query new_query : Query)
    (fs₀ : SearchPromotionsFormSet) (st : Store) :
    (save_searchpicks query new_query fs₀ st).1 = fs₀.valid := by
  by_cases h : fs₀.valid <;> simp [save_searchpicks, h]

theorem save_searchpicks_logs (query new_query : Query)
    (fs₀ : SearchPromotionsFormSet) (st : Store) (h : fs₀.valid = true) :
    (save_searchpicks query new_query fs₀ st).2.logs =
      st.logs ++ save_log_delta query new_query (assign_sort_orders fs₀) st := by
  rw [save_searchpicks_store_char query new_query fs₀ st h]

theorem save_searchpicks_promotions (query new_query : Query)
    (fs₀ : SearchPromotionsFormSet) (st : Store) (h : fs₀.valid = true) :
    (save_searchpicks query new_query fs₀ st).2.promotions =
      (if query.id = new_query.id then
         formset_save query (assign_sort_orders fs₀) st
       else
         bulk_update query new_query
           (formset_save query (assign_sort_orders fs₀) st)).promotions := by
  rw [save_searchpicks_store_char query new_query fs₀ st h]

theorem save_searchpicks_queries (query new_query : Query)
    (fs₀ : SearchPromotionsFormSet) (st : Store) (h : fs₀.valid = true) :
    (save_searchpicks query new_query fs₀ st).2.queries = st.queries := by
  rw [save_searchpicks_store_char query new_query fs₀ st h]
  by_cases hq : query.id = new_query.id <;> simp [hq, formset_save, bulk_update]

theorem assignAux_filter_delete :
    ∀ (forms : List PickForm) (i : Nat),
      (assignAux forms i).filter (fun f => f.delete)
        = forms.filter (fun f => f.delete)
  | [], _ => rfl
  | f :: fs, i => by
    by_cases hd : f.delete <;>
      simp [assignAux, hd, assignAux_filter_delete fs]

theorem items_for_deletion_assign (fs : SearchPromotionsFormSet) :
    items_for_deletion (assign_sort_orders fs) = items_for_deletion fs := by
  simp [items_for_deletion, assign_sort_orders, assignAux_filter_delete]

theorem assignAux_mem :
    ∀ (forms : List PickForm) (i : Nat) (f' : PickForm),
      f' ∈ assignAux forms i →
      ∃ f ∈ forms, f'.delete = f.delete ∧ f'.inst.pk = f.inst.pk
        ∧ f'.inst.query_id = f.inst.query_id ∧ f'.changed_data = f.changed_data
  | [], _, f', h => by simp [assignAux] at h
  | f :: fs, i, f', h => by
    by_cases hd : f.delete
    · simp only [assignAux, hd, if_true, List.mem_cons] at h
      rcases h with h | h
      · exact ⟨f, List.mem_cons_self f fs, by simp [h]⟩
      · rcases assignAux_mem fs i f' h with ⟨g, hg, hprops⟩
        exact ⟨g, List.mem_cons_of_mem f hg, hprops⟩
    · simp only [assignAux, hd, if_false, Bool.false_eq_true, List.mem_cons] at h
      rcases h with h | h
      · exact ⟨f, List.mem_cons_self f fs, by simp [h, hd]⟩
      · rcases assignAux_mem fs (i + 1) f' h with ⟨g, hg, hprops⟩
        exact ⟨g, List.mem_cons_of_mem f hg, hprops⟩

theorem assignAux_exists_new :
    ∀ (forms : List PickForm) (i : Nat),
      (∃ f ∈ forms, f.delete = false ∧ f.inst.pk = none) →
      ∃ f' ∈ assignAux forms i, f'.delete = false ∧ f'.inst.pk = none
  | [], _, h => by simp at h
  | f :: fs, i, h => by
    rcases h with ⟨g, hg, hgd, hgpk⟩
    rcases List.mem_cons.mp hg with rfl | hg'
    · refine ⟨{ g with inst := { g.inst with sort_order := i } }, ?_, by simp [hgd], by simp [hgpk]⟩
      simp [assignAux, hgd]
    · by_cases hd : f.delete
      · rcases assignAux_exists_new fs i ⟨g, hg', hgd, hgpk⟩ with ⟨f', hf', hprops⟩
        exact ⟨f', by simp [assignAux, hd, List.mem_cons]; right; exact hf', hprops⟩
      · rcases assignAux_exists_new fs (i + 1) ⟨g, hg', hgd, hgpk⟩ with ⟨f', hf', hprops⟩
        exact ⟨f', by simp [assignAux, hd, List.mem_cons]; right; exact hf', hprops⟩

theorem insertNew_query_id (qid : Nat) :
    ∀ (forms : List PickForm) (n : Nat) (p : SearchPromotion),
      p ∈ insertNew qid forms n → p.query_id = qid
  | [], _, p, h => by simp [insertNew] at h
  | f :: fs, n, p, h => by
    rcases List.mem_cons.mp h with rfl | h'
    · rfl
    · exact insertNew_query_id qid fs (n + 1) p h'

theorem insertNew_length (qid : Nat) :
    ∀ (forms : List PickForm) (n : Nat),
      (insertNew qid forms n).length = forms.length
  | [], _ => rfl
  | _ :: fs, n => by simp [insertNew, insertNew_length qid fs]

theorem runStepsFrom_all_or_none (failAt : Nat → Bool) :
    ∀ (steps : List Step) (n : Nat) (st : Store),
      runStepsFrom failAt steps n st = some (applySteps steps st)
        ∨ runStepsFrom failAt steps n st = none
  | [], n, st => Or.inl rfl
  | s :: rest, n, st => by
    by_cases hfail : failAt n
    · exact Or.inr (by simp [runStepsFrom, hfail])
    · rcases runStepsFrom_all_or_none failAt rest (n + 1) (s.run st) with hok | hnone
      · exact Or.inl (by simp [runStepsFrom, hfail, applySteps_cons, hok])
      · exact Or.inr (by simp [runStepsFrom, hfail, hnone])

/-- `transaction.atomic()` is all-or-nothing: the store after the block is
either the fully applied step list or the untouched entry store. -/
theorem atomic_all_or_nothing (failAt : Nat → Bool) (steps : List Step)
    (st : Store) :
    (atomic failAt steps st).1 = applySteps steps st
      ∨ (atomic failAt steps st).1 = st := by
  rcases runStepsFrom_all_or_none failAt steps 0 st with hok | hnone
  · exact Or.inl (by simp [atomic, hok])
  · exact Or.inr (by simp [atomic, hnone])

theorem map_tag_logSteps (tg : Option Nat → StepTag) (a : String)
    (ps : List SearchPromotion) :
    (logSteps tg a ps).map (fun s => s.tag) = ps.map (fun p => tg p.pk) := by
  simp [logSteps, List.map_map]

theorem count_tag_logSteps (tg : Option Nat → StepTag) (a : String)
    (ps : List SearchPromotion) (t : StepTag) (h : ∀ pk, t ≠ tg pk) :
    ((logSteps tg a ps).map (fun s => s.tag)).count t = 0 := by
  rw [map_tag_logSteps, List.count_eq_zero]
  intro hmem
  rcases List.mem_map.mp hmem with ⟨p, _, hpt⟩
  exact h p.pk hpt.symm

theorem items_for_deletion_spec (fs : SearchPromotionsFormSet)
    (q : SearchPromotion) (h : q ∈ items_for_deletion fs) :
    ∃ f ∈ fs.forms, f.delete = true ∧ f.inst = q := by
  unfold items_for_deletion at h
  rcases List.mem_filterMap.mp h with ⟨f, hf, hval⟩
  rcases List.mem_filter.mp hf with ⟨hfmem, hfdel⟩
  by_cases hs : f.inst.pk.isSome
  · simp only [hs, if_true] at hval
    exact ⟨f, hfmem, hfdel, Option.some.inj hval⟩
  · simp [hs] at hval

theorem deleted_pks_assign (fs : SearchPromotionsFormSet) :
    deleted_pks (assign_sort_orders fs) = deleted_pks fs := by
  simp [deleted_pks, items_for_deletion_assign]

theorem Query.get_logs (s : String) (st : Store) :
    (Query.get s st).2.logs = st.logs := by
  unfold Query.get
  dsimp only
  split <;> rfl

theorem Query.get_next_pk (s : String) (st : Store) :
    (Query.get s st).2.next_pk = st.next_pk := by
  unfold Query.get
  dsimp only
  split <;> rfl

theorem Query.get_mem_queries (s : String) (st : Store) :
    (Query.get s st).1 ∈ (Query.get s st).2.queries := by
  unfold Query.get
  dsimp only
  split
  · next q hf => exact List.mem_of_find?_eq_some hf
  · simp

/-- C4: the formset save, the foreign-key bulk reassignment and the
deletion audit-log calls of an edit, and the deletion log calls and the
queryset deletion of a delete, each form the body of one atomic
transaction: whatever statement fails, the resulting store is either the
fully applied body or the untouched entry store — never a partial
application.  The structural conjuncts state that the three kinds of calls
all belong to the one transactional step list. -/
theorem c4_writes_single_atomic_transaction (failAt : Nat → Bool)
    (query new_query : Query) (fs : SearchPromotionsFormSet) (st : Store) :
    ((atomic failAt (save_steps query new_query fs st) st).1
        = applySteps (save_steps query new_query fs st) st
      ∨ (atomic failAt (save_steps query new_query fs st) st).1 = st)
    ∧ ((atomic failAt (delete_steps query st) st).1
        = applySteps (delete_steps query st) st
      ∨ (atomic failAt (delete_steps query st) st).1 = st)
    ∧ StepTag.formsetSave ∈ (save_steps query new_query fs st).map (fun s => s.tag)
    ∧ (query.id ≠ new_query.id →
        StepTag.bulkUpdate ∈ (save_steps query new_query fs st).map (fun s => s.tag))
    ∧ (∀ p ∈ items_for_deletion fs,
        StepTag.logDelete p.pk ∈ (save_steps query new_query fs st).map (fun s => s.tag))
    ∧ (∀ p ∈ editors_picks query st,
        StepTag.logDelete p.pk ∈ (delete_steps query st).map (fun s => s.tag)) := by
  refine ⟨atomic_all_or_nothing failAt _ st, atomic_all_or_nothing failAt _ st, ?_, ?_, ?_, ?_⟩
  · simp [save_steps]
  · intro hne
    simp [save_steps, if_neg hne]
  · intro p hp
    simp only [save_steps, List.append_assoc, List.map_append, List.mem_append]
    exact Or.inl (by rw [map_tag_logSteps]; exact List.mem_map_of_mem _ hp)
  · intro p hp
    simp only [delete_steps, List.map_append, List.mem_append]
    exact Or.inl (by rw [map_tag_logSteps]; exact List.mem_map_of_mem _ hp)

/-- C7: a chooser or chooser-results request whose `p` parameter is not an
integer, below one, or beyond the last page gets a 404 response. -/
theorem c7_invalid_page_not_found (req : ChooserRequest) (st : Store)
    (get_results : Bool)
    (h : req.p = PageParam.notAnInt
      ∨ ∃ n : Int, req.p = PageParam.num n
          ∧ (n < 1 ∨ (num_pages (chooser_queries req st).length 10 : Int) < n)) :
    chooser req st get_results = ChooserResponse.notFound
    ∧ chooserresults req st = ChooserResponse.notFound := by
  have hgen : ∀ b : Bool, chooser req st b = ChooserResponse.notFound := by
    intro b
    rcases h with hna | ⟨n, hpn, hbad⟩
    · simp [chooser, paginator_page, hna]
    · rcases hbad with hlt | hgt
      · simp [chooser, paginator_page, hpn, hlt]
      · have hnlt : ¬ n < 1 := by omega
        simp [chooser, paginator_page, hpn, hnlt, hgt]
  exact ⟨hgen get_results, hgen true⟩

/-- Witness for C7: `p=notAnInt` yields 404 on both endpoints. -/
theorem c7_invalid_page_not_found_witness :
    ((ChooserRequest.mk none true PageParam.notAnInt).p = PageParam.notAnInt
      ∨ ∃ n : Int, (ChooserRequest.mk none true PageParam.notAnInt).p = PageParam.num n
          ∧ (n < 1 ∨ (num_pages (chooser_queries (ChooserRequest.mk none true PageParam.notAnInt)
                (Store.mk [] [] [] [] 0 0)).length 10 : Int) < n))
    ∧ chooser (ChooserRequest.mk none true PageParam.notAnInt)
        (Store.mk [] [] [] [] 0 0) false = ChooserResponse.notFound
    ∧ chooserresults (ChooserRequest.mk none true PageParam.notAnInt)
        (Store.mk [] [] [] [] 0 0) = ChooserResponse.notFound :=
  ⟨Or.inl rfl,
    c7_invalid_page_not_found (ChooserRequest.mk none true PageParam.notAnInt)
      (Store.mk [] [] [] [] 0 0) false (Or.inl rfl)⟩

/-- C1: every Query returned by the index view's base queryset has at least
one associated SearchPromotion; a Query with zero promotions is never in the
index listing. -/
theorem c1_index_only_lists_promoted (st : Store) (q : Query) (v : Nat)
    (h : (q, v) ∈ get_base_queryset st) :
    ∃ p ∈ st.promotions, p.query_id = q.id := by
  unfold get_base_queryset at h
  rcases List.mem_map.mp h with ⟨q', hq', hpair⟩
  rcases List.mem_filter.mp hq' with ⟨hqmem, hcontains⟩
  have hq : q' = q := by
    have := congrArg Prod.fst hpair
    simpa using this
  subst hq
  have : q'.id ∈ has_promotions st := by
    simpa using List.contains_iff_exists_mem_beq.mp hcontains
  rcases List.mem_map.mp this with ⟨p, hp, hpq⟩
  exact ⟨p, hp, hpq⟩

/-- Witness for C1 at a concrete store. -/
theorem c1_index_only_lists_promoted_witness :
    ((Query.mk 1 "alpha", 3) ∈
        get_base_queryset
          (Store.mk [Query.mk 1 "alpha", Query.mk 2 "beta"]
            [SearchPromotion.mk (some 5) 1 100 "d" 0]
            [DailyHits.mk 1 3] [] 6 3)) ∧
      ∃ p ∈ (Store.mk [Query.mk 1 "alpha", Query.mk 2 "beta"]
            [SearchPromotion.mk (some 5) 1 100 "d" 0]
            [DailyHits.mk 1 3] [] 6 3).promotions,
        p.query_id = (Query.mk 1 "alpha").id :=
  ⟨by decide,
    c1_index_only_lists_promoted _ (Query.mk 1 "alpha") 3 (by decide)⟩

theorem delete_view_store (query : Query) (st : Store) :
    applySteps (delete_steps query st) st =
      { st with
        promotions := st.promotions.filter (fun p => !(p.query_id == query.id)),
        logs := st.logs ++ (editors_picks query st).map
          (fun p => LogEntry.mk p.pk "wagtail.delete") } := by
  simp [delete_steps, applySteps_append, applySteps_logSteps, applySteps_singleton,
    delete_picks]

/-- C5: every removed promotion row is logged with `wagtail.delete` before
its removal — in the formset-save transaction every delete-log step precedes
the `formset.save()` step and none follows it, and in the delete view every
pick's delete-log step precedes the queryset deletion; the emitted entries
carry the rows' identifiers, one entry per removed row. -/
theorem c5_delete_logged_before_removal (query new_query : Query)
    (fs₀ : SearchPromotionsFormSet) (st : Store) (query_id : Nat)
    (hvalid : fs₀.valid = true)
    (hfind : st.queries.find? (fun q => q.id == query_id) = some query) :
    (∃ rest,
      (save_steps query new_query (assign_sort_orders fs₀) st).map (fun s => s.tag)
        = (items_for_deletion (assign_sort_orders fs₀)).map
            (fun p => StepTag.logDelete p.pk)
          ++ StepTag.formsetSave :: rest
      ∧ ∀ t ∈ rest, ∀ pk, t ≠ StepTag.logDelete pk)
    ∧ (∀ p ∈ items_for_deletion (assign_sort_orders fs₀),
        LogEntry.mk p.pk "wagtail.delete"
          ∈ (save_searchpicks query new_query fs₀ st).2.logs)
    ∧ ((delete_steps query st).map (fun s => s.tag)
        = (editors_picks query st).map (fun p => StepTag.logDelete p.pk)
          ++ [StepTag.deleteQuerySet])
    ∧ (delete true query_id st).store.logs
        = st.logs ++ (editors_picks query st).map
            (fun p => LogEntry.mk p.pk "wagtail.delete")
    ∧ (delete true query_id st).store.promotions
        = st.promotions.filter (fun p => !(p.query_id == query.id)) := by
  have hst : (delete true query_id st).store = applySteps (delete_steps query st) st := by
    simp [delete, hfind]
  refine ⟨?_, ?_, ?_, ?_, ?_⟩
  · by_cases hq : query.id = new_query.id
    · refine ⟨(new_objects query (assign_sort_orders fs₀) st).map
          (fun p => StepTag.logCreate p.pk)
        ++ (((changed_objects (assign_sort_orders fs₀)).filter
            (fun pc => !pc.2.isEmpty)).map (fun pc => pc.1)).map
            (fun p => StepTag.logEdit p.pk), ?_, ?_⟩
      · simp [save_steps, hq, List.map_append, map_tag_logSteps, List.append_assoc]
      · intro t ht pk
        rcases List.mem_append.mp ht with hc | he
        · rcases List.mem_map.mp hc with ⟨p, _, rfl⟩
          simp
        · rcases List.mem_map.mp he with ⟨p, _, rfl⟩
          simp
    · refine ⟨(new_objects query (assign_sort_orders fs₀) st).map
          (fun p => StepTag.logCreate p.pk)
        ++ StepTag.bulkUpdate
          :: ((changed_objects (assign_sort_orders fs₀)).map (fun pc => pc.1)).map
              (fun p => StepTag.logEdit p.pk), ?_, ?_⟩
      · simp [save_steps, hq, List.map_append, map_tag_logSteps, List.append_assoc]
      · intro t ht pk
        rcases List.mem_append.mp ht with hc | he
        · rcases List.mem_map.mp hc with ⟨p, _, rfl⟩
          simp
        · rcases List.mem_cons.mp he with rfl | he'
          · simp
          · rcases List.mem_map.mp he' with ⟨p, _, rfl⟩
            simp
  · intro p hp
    rw [save_searchpicks_logs query new_query fs₀ st hvalid]
    refine List.mem_append_right _ ?_
    refine List.mem_append_left _ ?_
    refine List.mem_append_left _ ?_
    exact List.mem_map_of_mem _ hp
  · simp [delete_steps, List.map_append, map_tag_logSteps, logSteps]
  · rw [hst, delete_view_store]
  · rw [hst, delete_view_store]

/-- Witness for C5: deleting `fxPick` via the formset and via the delete
view, on the sample store. -/
theorem c5_delete_logged_before_removal_witness :
    (fxFormSetDel.valid = true
      ∧ fxStore.queries.find? (fun q => q.id == 1) = some fxQueryA)
    ∧ ((∃ rest,
        (save_steps fxQueryA fxQueryB (assign_sort_orders fxFormSetDel) fxStore).map
            (fun s => s.tag)
          = (items_for_deletion (assign_sort_orders fxFormSetDel)).map
              (fun p => StepTag.logDelete p.pk)
            ++ StepTag.formsetSave :: rest
        ∧ ∀ t ∈ rest, ∀ pk, t ≠ StepTag.logDelete pk)
      ∧ (∀ p ∈ items_for_deletion (assign_sort_orders fxFormSetDel),
          LogEntry.mk p.pk "wagtail.delete"
            ∈ (save_searchpicks fxQueryA fxQueryB fxFormSetDel fxStore).2.logs)
      ∧ ((delete_steps fxQueryA fxStore).map (fun s => s.tag)
          = (editors_picks fxQueryA fxStore).map (fun p => StepTag.logDelete p.pk)
            ++ [StepTag.deleteQuerySet])
      ∧ (delete true 1 fxStore).store.logs
          = fxStore.logs ++ (editors_picks fxQueryA fxStore).map
              (fun p => LogEntry.mk p.pk "wagtail.delete")
      ∧ (delete true 1 fxStore).store.promotions
          = fxStore.promotions.filter (fun p => !(p.query_id == fxQueryA.id))) :=
  ⟨⟨by decide, by decide⟩,
    c5_delete_logged_before_removal fxQueryA fxQueryB fxFormSetDel fxStore 1
      (by decide) (by decide)⟩

/-- C3: when the query entity changed, every surviving pre-existing
promotion row is logged `wagtail.edit` (even with empty changed fields);
when it did not change, the edit-log entries are exactly those of rows with
nonempty changed fields.  The last two conjuncts give the exact log deltas
of both branches. -/
theorem c3_edit_logging_by_branch (query new_query : Query)
    (fs₀ : SearchPromotionsFormSet) (st : Store) (hvalid : fs₀.valid = true) :
    (query.id ≠ new_query.id →
        ∀ pc ∈ changed_objects (assign_sort_orders fs₀),
          LogEntry.mk pc.1.pk "wagtail.edit"
            ∈ (save_searchpicks query new_query fs₀ st).2.logs)
      ∧ (query.id = new_query.id →
          (save_searchpicks query new_query fs₀ st).2.logs
            = st.logs
              ++ (items_for_deletion (assign_sort_orders fs₀)).map
                  (fun p => LogEntry.mk p.pk "wagtail.delete")
              ++ (new_objects query (assign_sort_orders fs₀) st).map
                  (fun p => LogEntry.mk p.pk "wagtail.create")
              ++ ((changed_objects (assign_sort_orders fs₀)).filter
                    (fun pc => !pc.2.isEmpty)).map
                  (fun pc => LogEntry.mk pc.1.pk "wagtail.edit"))
      ∧ (query.id ≠ new_query.id →
          (save_searchpicks query new_query fs₀ st).2.logs
            = st.logs
              ++ (items_for_deletion (assign_sort_orders fs₀)).map
                  (fun p => LogEntry.mk p.pk "wagtail.delete")
              ++ (new_objects query (assign_sort_orders fs₀) st).map
                  (fun p => LogEntry.mk p.pk "wagtail.create")
              ++ (changed_objects (assign_sort_orders fs₀)).map
                  (fun pc => LogEntry.mk pc.1.pk "wagtail.edit")) := by
  have hl := save_searchpicks_logs query new_query fs₀ st hvalid
  refine ⟨?_, ?_, ?_⟩
  · intro hne pc hpc
    rw [hl]
    simp only [save_log_delta, if_neg hne]
    refine List.mem_append_right _ ?_
    refine List.mem_append_right _ ?_
    rw [List.map_map]
    exact List.mem_map_of_mem _ hpc
  · intro heq
    rw [hl]
    simp only [save_log_delta, if_pos heq]
    simp [List.map_map, List.append_assoc, Function.comp]
  · intro hne
    rw [hl]
    simp only [save_log_delta, if_neg hne]
    simp [List.map_map, List.append_assoc, Function.comp]

/-- Witness for C3 on the sample formset, with the query changed. -/
theorem c3_edit_logging_by_branch_witness :
    fxFormSet.valid = true
    ∧ ((fxQueryA.id ≠ fxQueryB.id →
        ∀ pc ∈ changed_objects (assign_sort_orders fxFormSet),
          LogEntry.mk pc.1.pk "wagtail.edit"
            ∈ (save_searchpicks fxQueryA fxQueryB fxFormSet fxStore).2.logs)
      ∧ (fxQueryA.id = fxQueryB.id →
          (save_searchpicks fxQueryA fxQueryB fxFormSet fxStore).2.logs
            = fxStore.logs
              ++ (items_for_deletion (assign_sort_orders fxFormSet)).map
                  (fun p => LogEntry.mk p.pk "wagtail.delete")
              ++ (new_objects fxQueryA (assign_sort_orders fxFormSet) fxStore).map
                  (fun p => LogEntry.mk p.pk "wagtail.create")
              ++ ((changed_objects (assign_sort_orders fxFormSet)).filter
                    (fun pc => !pc.2.isEmpty)).map
                  (fun pc => LogEntry.mk pc.1.pk "wagtail.edit"))
      ∧ (fxQueryA.id ≠ fxQueryB.id →
          (save_searchpicks fxQueryA fxQueryB fxFormSet fxStore).2.logs
            = fxStore.logs
              ++ (items_for_deletion (assign_sort_orders fxFormSet)).map
                  (fun p => LogEntry.mk p.pk "wagtail.delete")
              ++ (new_objects fxQueryA (assign_sort_orders fxFormSet) fxStore).map
                  (fun p => LogEntry.mk p.pk "wagtail.create")
              ++ (changed_objects (assign_sort_orders fxFormSet)).map
                  (fun pc => LogEntry.mk pc.1.pk "wagtail.edit"))) :=
  ⟨by decide, c3_edit_logging_by_branch fxQueryA fxQueryB fxFormSet fxStore (by decide)⟩

theorem count_tag_map (g : Option Nat → StepTag) (ps : List SearchPromotion)
    (t : StepTag) (h : ∀ pk, t ≠ g pk) :
    (ps.map (fun p => g p.pk)).count t = 0 := by
  rw [List.count_eq_zero]
  intro hmem
  rcases List.mem_map.mp hmem with ⟨p, _, hpt⟩
  exact h p.pk hpt.symm

/-- C2: on a successful edit whose query entity changed, every surviving
promotion row previously attached to the old query keeps its pk and carries
the new query's foreign key afterwards, and the transactional body contains
exactly one bulk-update statement (the rows are moved, not deleted and
recreated). -/
theorem c2_query_change_bulk_reassigns (query new_query : Query)
    (fs₀ : SearchPromotionsFormSet) (st : Store) (p : SearchPromotion) (k : Nat)
    (hvalid : fs₀.valid = true)
    (hne : query.id ≠ new_query.id)
    (hforms : ∀ f ∈ fs₀.forms, f.inst.query_id = query.id)
    (hp : p ∈ st.promotions) (hpq : p.query_id = query.id) (hpk : p.pk = some k)
    (hnotdel : ∀ f ∈ fs₀.forms, f.delete = true → f.inst.pk ≠ some k) :
    (∃ p' ∈ (save_searchpicks query new_query fs₀ st).2.promotions,
        p'.pk = some k ∧ p'.query_id = new_query.id)
    ∧ ((save_steps query new_query (assign_sort_orders fs₀) st).map
        (fun s => s.tag)).count StepTag.bulkUpdate = 1 := by
  constructor
  · rw [save_searchpicks_promotions query new_query fs₀ st hvalid, if_neg hne]
    have hknotmem : k ∉ deleted_pks fs₀ := by
      intro hk
      rcases List.mem_filterMap.mp hk with ⟨q0, hq0, hq0pk⟩
      rcases items_for_deletion_spec fs₀ q0 hq0 with ⟨f, hfmem, hfdel, hfinst⟩
      exact hnotdel f hfmem hfdel (by rw [hfinst]; exact hq0pk)
    have hkc : ((deleted_pks (assign_sort_orders fs₀)).contains k) = false := by
      rw [deleted_pks_assign]
      cases hx : (deleted_pks fs₀).contains k with
      | false => rfl
      | true =>
        exfalso
        rcases List.contains_iff_exists_mem_beq.mp hx with ⟨b, hb, hkb⟩
        have hk : k = b := by simpa using hkb
        exact hknotmem (hk ▸ hb)
    have hkm : k ∉ deleted_pks (assign_sort_orders fs₀) := by
      rw [deleted_pks_assign]
      exact hknotmem
    have hpkept : p ∈ st.promotions.filter (fun p0 =>
        match p0.pk with
        | some k0 => !((deleted_pks (assign_sort_orders fs₀)).contains k0)
        | none => true) :=
      List.mem_filter.mpr ⟨hp, by simp [hpk, hkc, hkm]⟩
    have hGmem : (match (existing_forms (assign_sort_orders fs₀)).find?
          (fun f0 => f0.inst.pk == p.pk) with
        | some f0 => f0.inst
        | none => p) ∈ (formset_save query (assign_sort_orders fs₀) st).promotions := by
      dsimp only [formset_save]
      exact List.mem_append_left _ (List.mem_map_of_mem _ hpkept)
    obtain ⟨r, hrmem, hrpk, hrq⟩ :
        ∃ r ∈ (formset_save query (assign_sort_orders fs₀) st).promotions,
          r.pk = some k ∧ r.query_id = query.id := by
      cases hfind : (existing_forms (assign_sort_orders fs₀)).find?
          (fun f0 => f0.inst.pk == p.pk) with
      | none =>
        rw [hfind] at hGmem
        exact ⟨p, hGmem, hpk, hpq⟩
      | some f =>
        rw [hfind] at hGmem
        have hfp := List.find?_some hfind
        have hfpk : f.inst.pk = some k := by
          have heqpk : f.inst.pk = p.pk := by simpa using hfp
          rw [heqpk, hpk]
        have hfq : f.inst.query_id = query.id := by
          have hfmem : f ∈ existing_forms (assign_sort_orders fs₀) :=
            List.mem_of_find?_eq_some hfind
          have hfmem' : f ∈ assignAux fs₀.forms 0 := by
            have := (List.mem_filter.mp hfmem).1
            simpa [assign_sort_orders] using this
          rcases assignAux_mem fs₀.forms 0 f hfmem' with ⟨g0, hg0, _, _, hqid, _⟩
          rw [hqid]
          exact hforms g0 hg0
        exact ⟨f.inst, hGmem, hfpk, hfq⟩
    refine ⟨{ r with query_id := new_query.id }, ?_, by simp [hrpk], rfl⟩
    have h0 := List.mem_map_of_mem
      (fun p0 => if p0.query_id == query.id then { p0 with query_id := new_query.id } else p0)
      hrmem
    dsimp only [bulk_update]
    simpa [hrq] using h0
  · have htags : (save_steps query new_query (assign_sort_orders fs₀) st).map
        (fun s => s.tag)
        = (items_for_deletion (assign_sort_orders fs₀)).map
            (fun p0 => StepTag.logDelete p0.pk)
          ++ StepTag.formsetSave
            :: ((new_objects query (assign_sort_orders fs₀) st).map
                (fun p0 => StepTag.logCreate p0.pk)
              ++ StepTag.bulkUpdate
                :: ((changed_objects (assign_sort_orders fs₀)).map (fun pc => pc.1)).map
                    (fun p0 => StepTag.logEdit p0.pk)) := by
      simp [save_steps, hne, List.map_append, map_tag_logSteps, List.append_assoc]
    have cdel : ((items_for_deletion (assign_sort_orders fs₀)).map
        (fun p0 => StepTag.logDelete p0.pk)).count StepTag.bulkUpdate = 0 :=
      count_tag_map _ _ _ (by intro pk; simp)
    have ccre : ((new_objects query (assign_sort_orders fs₀) st).map
        (fun p0 => StepTag.logCreate p0.pk)).count StepTag.bulkUpdate = 0 :=
      count_tag_map _ _ _ (by intro pk; simp)
    have cedit : (((changed_objects (assign_sort_orders fs₀)).map (fun pc => pc.1)).map
        (fun p0 => StepTag.logEdit p0.pk)).count StepTag.bulkUpdate = 0 :=
      count_tag_map _ _ _ (by intro pk; simp)
    rw [htags, List.count_append, cdel, List.count_cons, List.count_append, ccre,
      List.count_cons, cedit]
    simp

/-- Witness for C2: editing the sample formset moves `fxPick` (pk 5) from
`fxQueryA` to `fxQueryB`. -/
theorem c2_query_change_bulk_reassigns_witness :
    (fxFormSet.valid = true
      ∧ fxQueryA.id ≠ fxQueryB.id
      ∧ (∀ f ∈ fxFormSet.forms, f.inst.query_id = fxQueryA.id)
      ∧ fxPick ∈ fxStore.promotions
      ∧ fxPick.query_id = fxQueryA.id
      ∧ fxPick.pk = some 5
      ∧ (∀ f ∈ fxFormSet.forms, f.delete = true → f.inst.pk ≠ some 5))
    ∧ ((∃ p' ∈ (save_searchpicks fxQueryA fxQueryB fxFormSet fxStore).2.promotions,
          p'.pk = some 5 ∧ p'.query_id = fxQueryB.id)
      ∧ ((save_steps fxQueryA fxQueryB (assign_sort_orders fxFormSet) fxStore).map
          (fun s => s.tag)).count StepTag.bulkUpdate = 1) :=
  ⟨⟨by decide, by decide, by decide, by decide, by decide, by decide, by decide⟩,
    c2_query_change_bulk_reassigns fxQueryA fxQueryB fxFormSet fxStore fxPick 5
      (by decide) (by decide) (by decide) (by decide) (by decide) (by decide) (by decide)⟩

/-- C6: on a successful add, each newly created pick is logged with
`wagtail.create` twice — once inside `save_searchpicks` (second block of the
log delta) and once more by the add view's own loop (final block). -/
theorem c6_add_logs_create_twice (req : AddRequest) (st : Store)
    (hpost : req.isPost = true) (hqf : req.query_form_valid = true)
    (hvalid : req.formset.valid = true) :
    (add req st).store.logs
      = st.logs
        ++ (items_for_deletion (assign_sort_orders req.formset)).map
            (fun p => LogEntry.mk p.pk "wagtail.delete")
        ++ (new_objects (Query.get req.query_string st).1
            (assign_sort_orders req.formset) (Query.get req.query_string st).2).map
            (fun p => LogEntry.mk p.pk "wagtail.create")
        ++ ((changed_objects (assign_sort_orders req.formset)).filter
            (fun pc => !pc.2.isEmpty)).map
            (fun pc => LogEntry.mk pc.1.pk "wagtail.edit")
        ++ (new_objects (Query.get req.query_string st).1
            (assign_sort_orders req.formset) (Query.get req.query_string st).2).map
            (fun p => LogEntry.mk p.pk "wagtail.create")
    ∧ ∀ p ∈ new_objects (Query.get req.query_string st).1
          (assign_sort_orders req.formset) (Query.get req.query_string st).2,
        2 ≤ ((add req st).store.logs).count (LogEntry.mk p.pk "wagtail.create") := by
  have hres1 : (save_searchpicks (Query.get req.query_string st).1
      (Query.get req.query_string st).1 req.formset (Query.get req.query_string st).2).1
      = true := by
    rw [save_searchpicks_fst]
    exact hvalid
  have hadd : (add req st).store
      = applySteps (logSteps StepTag.logCreate "wagtail.create"
          (new_objects (Query.get req.query_string st).1
            (assign_sort_orders req.formset) (Query.get req.query_string st).2))
          (save_searchpicks (Query.get req.query_string st).1
            (Query.get req.query_string st).1 req.formset
            (Query.get req.query_string st).2).2 := by
    simp [add, hpost, hqf, hres1]
  have hlogs : (add req st).store.logs
      = st.logs
        ++ (items_for_deletion (assign_sort_orders req.formset)).map
            (fun p => LogEntry.mk p.pk "wagtail.delete")
        ++ (new_objects (Query.get req.query_string st).1
            (assign_sort_orders req.formset) (Query.get req.query_string st).2).map
            (fun p => LogEntry.mk p.pk "wagtail.create")
        ++ ((changed_objects (assign_sort_orders req.formset)).filter
            (fun pc => !pc.2.isEmpty)).map
            (fun pc => LogEntry.mk pc.1.pk "wagtail.edit")
        ++ (new_objects (Query.get req.query_string st).1
            (assign_sort_orders req.formset) (Query.get req.query_string st).2).map
            (fun p => LogEntry.mk p.pk "wagtail.create") := by
    rw [hadd, applySteps_logSteps]
    show (save_searchpicks _ _ _ _).2.logs ++ _ = _
    rw [save_searchpicks_logs _ _ _ _ hvalid, Query.get_logs]
    simp only [save_log_delta, if_pos rfl]
    simp [List.map_map, Function.comp, List.append_assoc]
  refine ⟨hlogs, ?_⟩
  intro p hp
  rw [hlogs]
  have hone : 0 < ((new_objects (Query.get req.query_string st).1
      (assign_sort_orders req.formset) (Query.get req.query_string st).2).map
      (fun p0 => LogEntry.mk p0.pk "wagtail.create")).count
        (LogEntry.mk p.pk "wagtail.create") :=
    List.count_pos_iff.mpr (List.mem_map_of_mem _ hp)
  simp only [List.count_append]
  omega

/-- Witness for C6: a concrete successful add submission. -/
theorem c6_add_logs_create_twice_witness :
    ((AddRequest.mk true true "gamma" fxFormSet).isPost = true
      ∧ (AddRequest.mk true true "gamma" fxFormSet).query_form_valid = true
      ∧ (AddRequest.mk true true "gamma" fxFormSet).formset.valid = true)
    ∧ ((add (AddRequest.mk true true "gamma" fxFormSet) fxStore).store.logs
        = fxStore.logs
          ++ (items_for_deletion (assign_sort_orders
              (AddRequest.mk true true "gamma" fxFormSet).formset)).map
              (fun p => LogEntry.mk p.pk "wagtail.delete")
          ++ (new_objects (Query.get (AddRequest.mk true true "gamma" fxFormSet).query_string fxStore).1
              (assign_sort_orders (AddRequest.mk true true "gamma" fxFormSet).formset)
              (Query.get (AddRequest.mk true true "gamma" fxFormSet).query_string fxStore).2).map
              (fun p => LogEntry.mk p.pk "wagtail.create")
          ++ ((changed_objects (assign_sort_orders
              (AddRequest.mk true true "gamma" fxFormSet).formset)).filter
              (fun pc => !pc.2.isEmpty)).map
              (fun pc => LogEntry.mk pc.1.pk "wagtail.edit")
          ++ (new_objects (Query.get (AddRequest.mk true true "gamma" fxFormSet).query_string fxStore).1
              (assign_sort_orders (AddRequest.mk true true "gamma" fxFormSet).formset)
              (Query.get (AddRequest.mk true true "gamma" fxFormSet).query_string fxStore).2).map
              (fun p => LogEntry.mk p.pk "wagtail.create")
      ∧ ∀ p ∈ new_objects (Query.get (AddRequest.mk true true "gamma" fxFormSet).query_string fxStore).1
            (assign_sort_orders (AddRequest.mk true true "gamma" fxFormSet).formset)
            (Query.get (AddRequest.mk true true "gamma" fxFormSet).query_string fxStore).2,
          2 ≤ ((add (AddRequest.mk true true "gamma" fxFormSet) fxStore).store.logs).count
              (LogEntry.mk p.pk "wagtail.create")) :=
  ⟨⟨rfl, rfl, by decide⟩,
    c6_add_logs_create_twice (AddRequest.mk true true "gamma" fxFormSet) fxStore
      rfl rfl (by decide)⟩

/-- C8: a valid add submission with at least one surviving new pick
redirects to the index, and afterwards the query is listed by the index
base queryset with a nonzero count of promotion rows. -/
theorem c8_add_then_listed (req : AddRequest) (st : Store)
    (hpost : req.isPost = true) (hqf : req.query_form_valid = true)
    (hvalid : req.formset.valid = true)
    (hpick : ∃ f ∈ req.formset.forms, f.delete = false ∧ f.inst.pk = none) :
    (add req st).response = Response.redirect "wagtailsearchpromotions:index"
    ∧ (∃ v, ((Query.get req.query_string st).1, v)
        ∈ get_base_queryset (add req st).store)
    ∧ 0 < ((add req st).store.promotions.filter
        (fun p => p.query_id == (Query.get req.query_string st).1.id)).length := by
  have hres1 : (save_searchpicks (Query.get req.query_string st).1
      (Query.get req.query_string st).1 req.formset (Query.get req.query_string st).2).1
      = true := by
    rw [save_searchpicks_fst]
    exact hvalid
  have hadd : (add req st).store
      = applySteps (logSteps StepTag.logCreate "wagtail.create"
          (new_objects (Query.get req.query_string st).1
            (assign_sort_orders req.formset) (Query.get req.query_string st).2))
          (save_searchpicks (Query.get req.query_string st).1
            (Query.get req.query_string st).1 req.formset
            (Query.get req.query_string st).2).2 := by
    simp [add, hpost, hqf, hres1]
  have hprom : (add req st).store.promotions
      = (formset_save (Query.get req.query_string st).1 (assign_sort_orders req.formset)
          (Query.get req.query_string st).2).promotions := by
    rw [hadd, applySteps_logSteps]
    show (save_searchpicks _ _ _ _).2.promotions = _
    rw [save_searchpicks_promotions _ _ _ _ hvalid, if_pos rfl]
  have hqueries : (add req st).store.queries = (Query.get req.query_string st).2.queries := by
    rw [hadd, applySteps_logSteps]
    show (save_searchpicks _ _ _ _).2.queries = _
    rw [save_searchpicks_queries _ _ _ _ hvalid]
  obtain ⟨f', hf'mem, hf'del, hf'pk⟩ := assignAux_exists_new req.formset.forms 0 hpick
  have hf'new : f' ∈ new_forms (assign_sort_orders req.formset) :=
    List.mem_filter.mpr ⟨by simpa [assign_sort_orders] using hf'mem,
      by simp [hf'del, hf'pk]⟩
  have hlen : 0 < (new_objects (Query.get req.query_string st).1
      (assign_sort_orders req.formset) (Query.get req.query_string st).2).length := by
    rw [new_objects, insertNew_length]
    exact List.length_pos_of_mem hf'new
  obtain ⟨np, hnp⟩ := List.exists_mem_of_ne_nil _ (List.ne_nil_of_length_pos hlen)
  have hnpq : np.query_id = (Query.get req.query_string st).1.id :=
    insertNew_query_id _ _ _ np hnp
  have hnp_store : np ∈ (add req st).store.promotions := by
    rw [hprom]
    dsimp only [formset_save]
    exact List.mem_append_right _ hnp
  have hresp : (add req st).response = Response.redirect "wagtailsearchpromotions:index" := by
    simp [add, hpost, hqf, hres1]
  refine ⟨hresp, ?_, ?_⟩
  · refine ⟨query_views (add req st).store (Query.get req.query_string st).1, ?_⟩
    unfold get_base_queryset
    refine List.mem_map.mpr ⟨(Query.get req.query_string st).1, ?_, rfl⟩
    refine List.mem_filter.mpr ⟨?_, ?_⟩
    · rw [hqueries]
      exact Query.get_mem_queries req.query_string st
    · refine List.contains_iff_exists_mem_beq.mpr ⟨np.query_id, ?_, by simp [hnpq]⟩
      exact List.mem_map_of_mem _ hnp_store
  · refine List.length_pos_of_mem (a := np) ?_
    exact List.mem_filter.mpr ⟨hnp_store, by simp [hnpq]⟩

/-- Witness for C8: the concrete add submission of the C6 scenario. -/
theorem c8_add_then_listed_witness :
    ((AddRequest.mk true true "gamma" fxFormSet).isPost = true
      ∧ (AddRequest.mk true true "gamma" fxFormSet).query_form_valid = true
      ∧ (AddRequest.mk true true "gamma" fxFormSet).formset.valid = true
      ∧ (∃ f ∈ (AddRequest.mk true true "gamma" fxFormSet).formset.forms,
          f.delete = false ∧ f.inst.pk = none))
    ∧ ((add (AddRequest.mk true true "gamma" fxFormSet) fxStore).response
        = Response.redirect "wagtailsearchpromotions:index"
      ∧ (∃ v, ((Query.get (AddRequest.mk true true "gamma" fxFormSet).query_string fxStore).1, v)
          ∈ get_base_queryset (add (AddRequest.mk true true "gamma" fxFormSet) fxStore).store)
      ∧ 0 < ((add (AddRequest.mk true true "gamma" fxFormSet) fxStore).store.promotions.filter
          (fun p => p.query_id ==
            (Query.get (AddRequest.mk true true "gamma" fxFormSet).query_string fxStore).1.id)).length) :=
  ⟨⟨rfl, rfl, by decide, by decide⟩,
    c8_add_then_listed (AddRequest.mk true true "gamma" fxFormSet) fxStore
      rfl rfl (by decide) (by decide)⟩

/-- C9: an invalid formset makes the save perform no writes and return
false; the view then flashes exactly one error — the joined top-level
formset errors when present, otherwise a generic message — and re-renders
the template with the bound formset so field errors surface inline. -/
theorem c9_invalid_formset_no_writes (reqA : AddRequest) (reqE : EditRequest)
    (query_id : Nat) (stA stE : Store) (queryE : Query)
    (hA1 : reqA.isPost = true) (hA2 : reqA.query_form_valid = true)
    (hA3 : reqA.formset.valid = false)
    (hE0 : stE.queries.find? (fun q => q.id == query_id) = some queryE)
    (hE1 : reqE.isPost = true) (hE2 : reqE.query_form_valid = true)
    (hE3 : reqE.formset.valid = false) :
    (∀ (q nq : Query) (fs : SearchPromotionsFormSet) (s : Store),
        fs.valid = false → save_searchpicks q nq fs s = (false, s))
    ∧ (add reqA stA).store = (Query.get reqA.query_string stA).2
    ∧ (add reqA stA).response
        = Response.template "wagtailsearchpromotions/add.html" (some reqA.formset)
    ∧ (add reqA stA).messages
        = [if reqA.formset.non_form_errors.isEmpty then
             Msg.error "Recommendations have not been created due to errors"
           else Msg.error (" ".intercalate reqA.formset.non_form_errors)]
    ∧ (edit reqE query_id stE).store = (Query.get reqE.query_string stE).2
    ∧ (edit reqE query_id stE).response
        = Response.template "wagtailsearchpromotions/edit.html" (some reqE.formset)
    ∧ (edit reqE query_id stE).messages
        = [if reqE.formset.non_form_errors.isEmpty then
             Msg.error "Recommendations have not been saved due to errors"
           else Msg.error (" ".intercalate reqE.formset.non_form_errors)] := by
  have hsave : ∀ (q nq : Query) (fs : SearchPromotionsFormSet) (s : Store),
      fs.valid = false → save_searchpicks q nq fs s = (false, s) := by
    intro q nq fs s hfs
    simp [save_searchpicks, hfs]
  have hsaveA := hsave (Query.get reqA.query_string stA).1
    (Query.get reqA.query_string stA).1 reqA.formset
    (Query.get reqA.query_string stA).2 hA3
  have hsaveE := hsave queryE (Query.get reqE.query_string stE).1 reqE.formset
    (Query.get reqE.query_string stE).2 hE3
  refine ⟨hsave, ?_, ?_, ?_, ?_, ?_, ?_⟩
  · simp [add, hA1, hA2, hsaveA]
  · simp [add, hA1, hA2, hsaveA]
  · simp [add, hA1, hA2, hsaveA]
  · simp [edit, hE0, hE1, hE2, hsaveE]
  · simp [edit, hE0, hE1, hE2, hsaveE]
  · simp [edit, hE0, hE1, hE2, hsaveE]

/-- Witness for C9: a concrete add submission with a top-level formset error
and a concrete edit submission with a field-level-only invalid formset. -/
theorem c9_invalid_formset_no_writes_witness :
    ((AddRequest.mk true true "gamma" fxFormSetBad).isPost = true
      ∧ (AddRequest.mk true true "gamma" fxFormSetBad).query_form_valid = true
      ∧ (AddRequest.mk true true "gamma" fxFormSetBad).formset.valid = false
      ∧ fxStore.queries.find? (fun q => q.id == 1) = some fxQueryA
      ∧ (EditRequest.mk true true "beta" fxFormSetBadField).isPost = true
      ∧ (EditRequest.mk true true "beta" fxFormSetBadField).query_form_valid = true
      ∧ (EditRequest.mk true true "beta" fxFormSetBadField).formset.valid = false)
    ∧ ((∀ (q nq : Query) (fs : SearchPromotionsFormSet) (s : Store),
          fs.valid = false → save_searchpicks q nq fs s = (false, s))
      ∧ (add (AddRequest.mk true true "gamma" fxFormSetBad) fxStore).store
          = (Query.get (AddRequest.mk true true "gamma" fxFormSetBad).query_string fxStore).2
      ∧ (add (AddRequest.mk true true "gamma" fxFormSetBad) fxStore).response
          = Response.template "wagtailsearchpromotions/add.html"
              (some (AddRequest.mk true true "gamma" fxFormSetBad).formset)
      ∧ (add (AddRequest.mk true true "gamma" fxFormSetBad) fxStore).messages
          = [if (AddRequest.mk true true "gamma" fxFormSetBad).formset.non_form_errors.isEmpty then
               Msg.error "Recommendations have not been created due to errors"
             else Msg.error
               (" ".intercalate (AddRequest.mk true true "gamma" fxFormSetBad).formset.non_form_errors)]
      ∧ (edit (EditRequest.mk true true "beta" fxFormSetBadField) 1 fxStore).store
          = (Query.get (EditRequest.mk true true "beta" fxFormSetBadField).query_string fxStore).2
      ∧ (edit (EditRequest.mk true true "beta" fxFormSetBadField) 1 fxStore).response
          = Response.template "wagtailsearchpromotions/edit.html"
              (some (EditRequest.mk true true "beta" fxFormSetBadField).formset)
      ∧ (edit (EditRequest.mk true true "beta" fxFormSetBadField) 1 fxStore).messages
          = [if (EditRequest.mk true true "beta" fxFormSetBadField).formset.non_form_errors.isEmpty then
               Msg.error "Recommendations have not been saved due to errors"
             else Msg.error
               (" ".intercalate (EditRequest.mk true true "beta" fxFormSetBadField).formset.non_form_errors)]) :=
  ⟨⟨rfl, rfl, by decide, by decide, rfl, rfl, by decide⟩,
    c9_invalid_formset_no_writes (AddRequest.mk true true "gamma" fxFormSetBad)
      (EditRequest.mk true true "beta" fxFormSetBadField) 1 fxStore fxStore fxQueryA
      rfl rfl (by decide) (by decide) rfl rfl (by decide)⟩

/-- C10: a chooser request with a valid search term shows the
popularity-ranked queries filtered by case-insensitive containment of the
normalised term, 10 per page; without a search term, the unfiltered
popularity-ranked list, 10 per page. -/
theorem c10_chooser_popularity_filter_paginate (req : ChooserRequest)
    (st : Store) (get_results : Bool) (term : String) (n : Int)
    (hp : req.p = PageParam.num n) (h1 : 1 ≤ n)
    (h2 : n ≤ (num_pages (chooser_queries req st).length 10 : Int)) :
    (req.q = some term → req.q_valid = true →
      chooser req st get_results
        = ChooserResponse.page get_results
            ((((get_most_popular st).filter
                (fun query => icontains query.query_string (normalise_query_string term))).drop
                ((n.toNat - 1) * 10)).take 10))
    ∧ (req.q = none →
      chooser req st get_results
        = ChooserResponse.page get_results
            (((get_most_popular st).drop ((n.toNat - 1) * 10)).take 10)) := by
  have hnotlt : ¬ n < 1 := by omega
  have hnotgt : ¬ ((num_pages (chooser_queries req st).length 10 : Int) < n) := by omega
  constructor
  · intro hq hqv
    have hcq : chooser_queries req st
        = (get_most_popular st).filter
            (fun query => icontains query.query_string (normalise_query_string term)) := by
      simp [chooser_queries, hq, hqv]
    rw [← hcq]
    simp [chooser, paginator_page, hp, hnotlt, hnotgt]
  · intro hq
    have hcq : chooser_queries req st = get_most_popular st := by
      simp [chooser_queries, hq]
    rw [← hcq]
    simp [chooser, paginator_page, hp, hnotlt, hnotgt]

/-- Witness for C10: searching for "Alp" on the sample store, first page. -/
theorem c10_chooser_popularity_filter_paginate_witness :
    ((ChooserRequest.mk (some "Alp") true (PageParam.num 1)).p = PageParam.num 1
      ∧ (1 : Int) ≤ 1
      ∧ (1 : Int) ≤ (num_pages
          (chooser_queries (ChooserRequest.mk (some "Alp") true (PageParam.num 1)) fxStore).length
          10 : Int))
    ∧ (((ChooserRequest.mk (some "Alp") true (PageParam.num 1)).q = some "Alp" →
        (ChooserRequest.mk (some "Alp") true (PageParam.num 1)).q_valid = true →
        chooser (ChooserRequest.mk (some "Alp") true (PageParam.num 1)) fxStore false
          = ChooserResponse.page false
              ((((get_most_popular fxStore).filter
                  (fun query => icontains query.query_string (normalise_query_string "Alp"))).drop
                  (((1 : Int).toNat - 1) * 10)).take 10))
      ∧ ((ChooserRequest.mk (some "Alp") true (PageParam.num 1)).q = none →
        chooser (ChooserRequest.mk (some "Alp") true (PageParam.num 1)) fxStore false
          = ChooserResponse.page false
              (((get_most_popular fxStore).drop (((1 : Int).toNat - 1) * 10)).take 10))) :=
  ⟨⟨rfl, by decide, by unfold num_pages; exact_mod_cast Nat.le_max_left 1 _⟩,
    c10_chooser_popularity_filter_paginate
      (ChooserRequest.mk (some "Alp") true (PageParam.num 1)) fxStore false "Alp" 1
      rfl (by decide) (by unfold num_pages; exact_mod_cast Nat.le_max_left 1 _)⟩
